import Mathlib

/-
Shallow embedding of the xmnz_tester IoT production-test station
(alejandro-barrera-lopez/iot-tester), covering the result model
(models/test_result.py), the test orchestrator (engine/test_runner.py),
the relay controller surface (hal/relays.py) and the PPK2 power meter
(hal/ppk2.py).  Wall-clock readings (datetime.now / time.time) are
modelled as explicit natural-number clock arguments; Python exceptions
are modelled as Except / Option String outcomes; the callback and the
hardware environment are modelled as explicit data.
-/

namespace XmnzTester

/-! ## models/test_result.py -/

/-- One step outcome, mirroring the TestStepResult dataclass. -/
structure TestStepResult where
  step_name : String
  status : String
  message : String
  details : List (String × String) := []
deriving DecidableEq, Repr

/-- The full run record, mirroring the TestResult dataclass.  Timestamps are
natural-number clock readings. -/
structure TestResult where
  station_id : String
  serial_number : String := "NOT_READ"
  overall_status : String := "PASS"
  start_time : Nat
  end_time : Option Nat := none
  steps : List TestStepResult := []
deriving DecidableEq, Repr

/-- Constructing TestResult(station_id=...) at clock time now. -/
def TestResult.new (sid : String) (now : Nat) : TestResult :=
  { station_id := sid, start_time := now }

/-- TestResult.add_step: append the step; if its status is FAIL the overall
status becomes FAIL. -/
def TestResult.add_step (r : TestResult) (s : TestStepResult) : TestResult :=
  let r' := { r with steps := r.steps ++ [s] }
  if s.status = "FAIL" then { r' with overall_status := "FAIL" } else r'

/-- TestResult.finalize: stamp end_time with the current clock reading
(datetime.datetime.now()).  Note the source overwrites end_time
unconditionally on every call. -/
def TestResult.finalize (r : TestResult) (now : Nat) : TestResult :=
  { r with end_time := some now }

/-- The operations a run performs on its TestResult. -/
inductive ResultOp where
  | add (s : TestStepResult)
  | fin (now : Nat)
deriving Repr

/-- Apply a sequence of add_step / finalize operations. -/
def applyOps (r : TestResult) (ops : List ResultOp) : TestResult :=
  ops.foldl (fun r op => match op with
    | ResultOp.add s => r.add_step s
    | ResultOp.fin t => r.finalize t) r

theorem add_step_steps (r : TestResult) (s : TestStepResult) :
    (r.add_step s).steps = r.steps ++ [s] := by
  unfold TestResult.add_step
  split <;> rfl

theorem add_step_overall (r : TestResult) (s : TestStepResult) :
    (r.add_step s).overall_status =
      (if s.status = "FAIL" then "FAIL" else r.overall_status) := by
  unfold TestResult.add_step
  split <;> rfl

theorem add_step_end_time (r : TestResult) (s : TestStepResult) :
    (r.add_step s).end_time = r.end_time := by
  unfold TestResult.add_step
  split <;> rfl

theorem add_step_start_time (r : TestResult) (s : TestStepResult) :
    (r.add_step s).start_time = r.start_time := by
  unfold TestResult.add_step
  split <;> rfl

/-- The FAIL invariant: overall_status is FAIL exactly when some recorded
step has status FAIL. -/
def FailInv (r : TestResult) : Prop :=
  r.overall_status = "FAIL" ↔ ∃ s ∈ r.steps, s.status = "FAIL"

theorem add_step_failInv (r : TestResult) (s : TestStepResult)
    (h : FailInv r) : FailInv (r.add_step s) := by
  unfold FailInv at h ⊢
  rw [add_step_overall, add_step_steps]
  by_cases hs : s.status = "FAIL"
  · simp only [hs, if_true, List.mem_append, List.mem_singleton, if_pos]
    constructor
    · intro _
      exact ⟨s, Or.inr rfl, hs⟩
    · intro _
      trivial
  · simp only [hs, if_false]
    rw [h]
    constructor
    · rintro ⟨x, hx, hxs⟩
      exact ⟨x, List.mem_append_left _ hx, hxs⟩
    · rintro ⟨x, hx, hxs⟩
      rcases List.mem_append.mp hx with h1 | h1
      · exact ⟨x, h1, hxs⟩
      · simp only [List.mem_singleton] at h1
        subst h1
        exact absurd hxs hs

theorem finalize_failInv (r : TestResult) (t : Nat)
    (h : FailInv r) : FailInv (r.finalize t) := h

theorem applyOps_failInv (ops : List ResultOp) :
    ∀ r : TestResult, FailInv r → FailInv (applyOps r ops) := by
  induction ops with
  | nil => intro r h; exact h
  | cons op ops ih =>
    intro r h
    cases op with
    | add s => exact ih _ (add_step_failInv r s h)
    | fin t => exact ih _ (finalize_failInv r t h)

theorem add_step_fail_mono (r : TestResult) (s : TestStepResult)
    (h : r.overall_status = "FAIL") : (r.add_step s).overall_status = "FAIL" := by
  rw [add_step_overall]
  split <;> simp [h]

theorem applyOps_fail_mono (ops : List ResultOp) :
    ∀ r : TestResult, r.overall_status = "FAIL" →
      (applyOps r ops).overall_status = "FAIL" := by
  induction ops with
  | nil => intro r h; exact h
  | cons op ops ih =>
    intro r h
    cases op with
    | add s => exact ih _ (add_step_fail_mono r s h)
    | fin t => exact ih _ h

theorem new_failInv (sid : String) (t0 : Nat) : FailInv (TestResult.new sid t0) := by
  unfold FailInv TestResult.new
  simp only [List.not_mem_nil, false_and, exists_false, iff_false]
  decide

/-- Claim C2: for every sequence of reported steps, overall_status equals
FAIL iff at least one appended step has status FAIL; the result starts as
PASS, flips to FAIL the instant a FAIL step is appended (the iff holds after
every prefix of operations), and never reverts to PASS for any continuation
of the run, finalize() included. -/
theorem claim_C2_overall_status_fail_iff (sid : String) (t0 : Nat)
    (ops more : List ResultOp) :
    (TestResult.new sid t0).overall_status = "PASS"
    ∧ ((applyOps (TestResult.new sid t0) ops).overall_status = "FAIL"
        ↔ ∃ s ∈ (applyOps (TestResult.new sid t0) ops).steps, s.status = "FAIL")
    ∧ ((applyOps (TestResult.new sid t0) ops).overall_status = "FAIL" →
        (applyOps (applyOps (TestResult.new sid t0) ops) more).overall_status
          = "FAIL") := by
  refine ⟨rfl, ?_, ?_⟩
  · exact applyOps_failInv ops _ (new_failInv sid t0)
  · exact applyOps_fail_mono more _

theorem claim_C2_overall_status_fail_iff_witness :
    (applyOps (TestResult.new "S" 0)
        [ResultOp.add ⟨"Paso 1", "FAIL", "m", []⟩]).overall_status = "FAIL"
    ∧ (applyOps
        (applyOps (TestResult.new "S" 0)
          [ResultOp.add ⟨"Paso 1", "FAIL", "m", []⟩])
        [ResultOp.fin 5]).overall_status = "FAIL" := by
  have h := claim_C2_overall_status_fail_iff "S" 0
    [ResultOp.add ⟨"Paso 1", "FAIL", "m", []⟩] [ResultOp.fin 5]
  have hfail := h.2.1.mpr ⟨⟨"Paso 1", "FAIL", "m", []⟩, by decide, rfl⟩
  exact ⟨hfail, h.2.2 hfail⟩

/-! ## hal/relays.py -/

namespace RelayController

/-- The methods the RelayController class defines (hal/relays.py). -/
def method_names : List String :=
  ["__init__", "connect", "disconnect", "set_relay", "all_off",
   "__enter__", "__exit__"]

/-- Python attribute lookup on a RelayController instance succeeds only for
defined methods. -/
def hasMethod (n : String) : Bool := method_names.contains n

/-- Message of the AttributeError raised by looking up get_relay_state. -/
def getRelayStateAttrError : String :=
  "AttributeError: RelayController object has no attribute get_relay_state"

/-- RelayController.set_relay: raises ConnectionError when not connected and
ValueError when the relay number is out of 1..num_relays; otherwise drives the
relay.  The commanded state does not affect validation. -/
def set_relay (connected : Bool) (num_relays relay_num : Nat) (_state : Bool) :
    Except String Unit :=
  if connected = false then
    Except.error "No conectado. Llama a connect() primero."
  else if 1 ≤ relay_num ∧ relay_num ≤ num_relays then Except.ok ()
  else Except.error ("Número de relé inválido: " ++ toString relay_num)

/-- Looking up relay_controller.get_relay_state: returns the read-back
function only if the class defines the method, else an AttributeError.
state_of is the physical relay state an implementation would read back. -/
def getattr_get_relay_state (state_of : Nat → Bool) :
    Except String (Nat → Bool) :=
  if hasMethod "get_relay_state" then Except.ok state_of
  else Except.error getRelayStateAttrError

end RelayController

/-! ## engine/test_runner.py — relay read-back step handlers -/

/-- TestRunner._test_step_connect_battery, the inner try/except: set the
battery relay, read it back through get_relay_state, and report; any
exception becomes the FAIL report of the except branch. -/
def test_step_connect_battery (relay_connected : Bool)
    (num_relays relay_num_battery : Nat) (state_of : Nat → Bool) :
    String × String :=
  match RelayController.set_relay relay_connected num_relays relay_num_battery true with
  | Except.error e => ("Error al conectar la batería: " ++ e, "FAIL")
  | Except.ok _ =>
    match RelayController.getattr_get_relay_state state_of with
    | Except.error e => ("Error al conectar la batería: " ++ e, "FAIL")
    | Except.ok f =>
      if f relay_num_battery then
        ("Batería conectada correctamente -> PASS", "PASS")
      else ("Fallo al conectar la batería -> FAIL", "FAIL")

/-- The test_tamper_combination helper inside _test_step_test_tampers: set
both tamper relays, read both back, compare with the expectation; an error
propagates to the enclosing try. -/
def test_tamper_combination (relay_connected : Bool) (num_relays r1 r2 : Nat)
    (state_of : Nat → Bool) (s1 s2 e1 e2 : Bool) :
    Except String (String × String) :=
  match RelayController.set_relay relay_connected num_relays r1 s1 with
  | Except.error e => Except.error e
  | Except.ok _ =>
  match RelayController.set_relay relay_connected num_relays r2 s2 with
  | Except.error e => Except.error e
  | Except.ok _ =>
  match RelayController.getattr_get_relay_state state_of with
  | Except.error e => Except.error e
  | Except.ok f =>
    if f r1 = e1 ∧ f r2 = e2 then
      Except.ok ("Relés -> Estado esperado -> PASS", "PASS")
    else Except.ok ("Relés -> Esperado distinto del obtenido -> FAIL", "FAIL")

/-- Run the tamper truth-table combinations in order, collecting the reports
emitted before the first escaping exception, if any. -/
def tamper_combos_run (relay_connected : Bool) (num_relays r1 r2 : Nat)
    (state_of : Nat → Bool) :
    List (Bool × Bool × Bool × Bool) →
      List (String × String) × Option String
  | [] => ([], none)
  | c :: cs =>
    match test_tamper_combination relay_connected num_relays r1 r2 state_of
        c.1 c.2.1 c.2.2.1 c.2.2.2 with
    | Except.error e => ([], some e)
    | Except.ok rep =>
      let rest := tamper_combos_run relay_connected num_relays r1 r2 state_of cs
      (rep :: rest.1, rest.2)

/-- TestRunner._test_step_test_tampers: all four combinations of the two
tamper relays; an exception anywhere is caught by the enclosing try and
reported as a single FAIL. -/
def test_step_test_tampers (relay_connected : Bool) (num_relays r1 r2 : Nat)
    (state_of : Nat → Bool) : List (String × String) :=
  let out := tamper_combos_run relay_connected num_relays r1 r2 state_of
    [(false, false, false, false), (true, false, true, false),
     (false, true, false, true), (true, true, true, true)]
  match out.2 with
  | some e => out.1 ++ [("Error al verificar los relés de tamper: " ++ e, "FAIL")]
  | none => out.1

theorem hasMethod_get_relay_state_false :
    RelayController.hasMethod "get_relay_state" = false := by decide

theorem getattr_get_relay_state_error (state_of : Nat → Bool) :
    RelayController.getattr_get_relay_state state_of
      = Except.error RelayController.getRelayStateAttrError := by
  unfold RelayController.getattr_get_relay_state
  rw [hasMethod_get_relay_state_false]
  rfl

/-- Claim C9: RelayController defines no get_relay_state method, so each
relay read-back step handler that reaches its read-back raises an
AttributeError, takes the except branch and reports FAIL; these handlers
never report PASS, and every tamper-truth-table report is FAIL. -/
theorem claim_C9_relay_readback_never_pass (relay_connected : Bool)
    (num_relays idb r1 r2 : Nat) (state_of : Nat → Bool) :
    RelayController.hasMethod "get_relay_state" = false
    ∧ (relay_connected = true → 1 ≤ idb → idb ≤ num_relays →
        test_step_connect_battery relay_connected num_relays idb state_of
          = ("Error al conectar la batería: "
              ++ RelayController.getRelayStateAttrError, "FAIL"))
    ∧ (test_step_connect_battery relay_connected num_relays idb state_of).2
        ≠ "PASS"
    ∧ (∀ p ∈ test_step_test_tampers relay_connected num_relays r1 r2 state_of,
        p.2 = "FAIL") := by
  have hcombo : ∀ (s1 s2 e1 e2 : Bool), ∃ e,
      test_tamper_combination relay_connected num_relays r1 r2 state_of
        s1 s2 e1 e2 = Except.error e := by
    intro s1 s2 e1 e2
    unfold test_tamper_combination
    cases RelayController.set_relay relay_connected num_relays r1 s1 with
    | error e => exact ⟨e, rfl⟩
    | ok _ =>
      cases RelayController.set_relay relay_connected num_relays r2 s2 with
      | error e => exact ⟨e, rfl⟩
      | ok _ =>
        rw [getattr_get_relay_state_error]
        exact ⟨_, rfl⟩
  refine ⟨hasMethod_get_relay_state_false, ?_, ?_, ?_⟩
  · intro hc h1 h2
    subst hc
    unfold test_step_connect_battery RelayController.set_relay
    rw [if_neg (by simp), if_pos ⟨h1, h2⟩, getattr_get_relay_state_error]
  · unfold test_step_connect_battery
    cases RelayController.set_relay relay_connected num_relays idb true with
    | error e => simp
    | ok _ =>
      rw [getattr_get_relay_state_error]
      simp
  · intro p hp
    unfold test_step_test_tampers at hp
    obtain ⟨e, he⟩ := hcombo false false false false
    simp only [tamper_combos_run, he] at hp
    simp only [List.nil_append, List.mem_singleton] at hp
    subst hp
    rfl

theorem claim_C9_relay_readback_never_pass_witness :
    test_step_connect_battery true 4 4 (fun _ => true)
      = ("Error al conectar la batería: "
          ++ RelayController.getRelayStateAttrError, "FAIL")
    ∧ (test_step_connect_battery true 4 4 (fun _ => true)).2 ≠ "PASS" := by
  refine ⟨?_, ?_⟩
  · exact (claim_C9_relay_readback_never_pass true 4 4 1 2 (fun _ => true)).2.1
      rfl (by decide) (by decide)
  · exact (claim_C9_relay_readback_never_pass true 4 4 1 2 (fun _ => true)).2.2.1

/-! ## hal/ppk2.py and the sleep-current step -/

namespace PowerMeterPPK2

/-- PowerMeterPPK2.measure_average_current: raises ConnectionError when not
connected; with zero samples returns 0.0; otherwise the mean of the
collected samples (in microamps). -/
def measure_average_current (connected : Bool) (samples : List ℚ) :
    Except String ℚ :=
  if connected = false then Except.error "PPK2 no conectado."
  else if samples.isEmpty then Except.ok 0
  else Except.ok (samples.sum / (samples.length : ℚ))

end PowerMeterPPK2

/-- The verdict branch of TestRunner._test_step_measure_sleep_current:
measured average versus configured threshold, strict less-than passes;
a missing measurement is the measurement-failed FAIL branch. -/
def measure_sleep_current_verdict (avg_current : Option ℚ) (threshold_ua : ℚ) :
    String × String :=
  match avg_current with
  | some a =>
    if a < threshold_ua then
      ("Corriente medida en bajo consumo: " ++ toString a ++ " uA -> PASS",
        "PASS")
    else
      ("Corriente medida en bajo consumo: " ++ toString a
        ++ " uA (supera el umbral) -> FAIL", "FAIL")
  | none => ("Fallo al medir corriente en bajo consumo -> FAIL", "FAIL")

/-- TestRunner._test_step_measure_sleep_current with a connected PPK2: the
measurement feeds the verdict; an exception is caught and reported FAIL. -/
def test_step_measure_sleep_current (samples : List ℚ) (threshold_ua : ℚ) :
    String × String :=
  match PowerMeterPPK2.measure_average_current true samples with
  | Except.ok a => measure_sleep_current_verdict (some a) threshold_ua
  | Except.error e => ("Error al medir corriente en bajo consumo: " ++ e, "FAIL")

/-- Claim C7: the sleep-current step passes exactly when the measured
average is strictly below the threshold; measured equal to or above the
threshold fails. -/
theorem claim_C7_sleep_current_strict_threshold (m t : ℚ) :
    (m < t → (measure_sleep_current_verdict (some m) t).2 = "PASS")
    ∧ (t ≤ m → (measure_sleep_current_verdict (some m) t).2 = "FAIL") := by
  constructor
  · intro h
    simp only [measure_sleep_current_verdict]
    rw [if_pos h]
  · intro h
    simp only [measure_sleep_current_verdict]
    rw [if_neg (not_lt.mpr h)]

theorem claim_C7_sleep_current_strict_threshold_witness :
    (measure_sleep_current_verdict (some 1) 2).2 = "PASS"
    ∧ (measure_sleep_current_verdict (some 2) 2).2 = "FAIL"
    ∧ (measure_sleep_current_verdict (some 3) 2).2 = "FAIL" := by
  refine ⟨?_, ?_, ?_⟩
  · exact (claim_C7_sleep_current_strict_threshold 1 2).1 (by norm_num)
  · exact (claim_C7_sleep_current_strict_threshold 2 2).2 (by norm_num)
  · exact (claim_C7_sleep_current_strict_threshold 3 2).2 (by norm_num)

/-- Claim C10: a connected PPK2 measurement never fails: zero samples give
0.0, so the sleep-current step always takes the some-branch (the
measurement-failed branch is unreachable) and a sample-less measurement
passes against every strictly positive threshold. -/
theorem claim_C10_measurement_never_none (samples : List ℚ) (t : ℚ) :
    (∃ v, PowerMeterPPK2.measure_average_current true samples = Except.ok v)
    ∧ PowerMeterPPK2.measure_average_current true [] = Except.ok 0
    ∧ (∃ a, test_step_measure_sleep_current samples t
          = measure_sleep_current_verdict (some a) t)
    ∧ (0 < t → (test_step_measure_sleep_current [] t).2 = "PASS") := by
  have hok : ∀ ss : List ℚ, ∃ v,
      PowerMeterPPK2.measure_average_current true ss = Except.ok v := by
    intro ss
    unfold PowerMeterPPK2.measure_average_current
    rw [if_neg (by simp)]
    by_cases h : ss.isEmpty
    · rw [if_pos h]; exact ⟨0, rfl⟩
    · rw [if_neg h]; exact ⟨_, rfl⟩
  refine ⟨hok samples, rfl, ?_, ?_⟩
  · obtain ⟨v, hv⟩ := hok samples
    unfold test_step_measure_sleep_current
    rw [hv]
    exact ⟨v, rfl⟩
  · intro ht
    have h0 : test_step_measure_sleep_current [] t
        = measure_sleep_current_verdict (some 0) t := rfl
    rw [h0]
    simp only [measure_sleep_current_verdict]
    rw [if_pos ht]

theorem claim_C10_measurement_never_none_witness :
    (test_step_measure_sleep_current [] 1).2 = "PASS" :=
  (claim_C10_measurement_never_none [] 1).2.2.2 (by norm_num)

/-! ## engine/test_runner.py — runner state and _report -/

/-- One invocation of the GUI callback: callback(step_id, message, status). -/
structure CallbackEvent where
  step_id : Option String
  message : String
  status : String
deriving DecidableEq, Repr

/-- The state _report acts on during a run: the in-progress TestResult, the
stream of callback invocations so far, and the step counter. -/
structure RunnerState where
  result : TestResult
  calls : List CallbackEvent
  step_counter : Nat
deriving DecidableEq, Repr

/-- TestRunner._report during a run (callback and test_result both set):
forward the event to the callback and append a TestStepResult whose
step_name is built from the current step counter. -/
def report (st : RunnerState) (step_id : Option String)
    (message status : String) (details : List (String × String)) :
    RunnerState :=
  { st with
    calls := st.calls ++ [⟨step_id, message, status⟩],
    result := st.result.add_step
      ⟨"Paso " ++ toString st.step_counter, status, message, details⟩ }

/-- The reporter-level actions a step handler performs: _start_step begins
by incrementing the counter (inc) and every _report call is rep. -/
inductive RAct where
  | inc
  | rep (step_id : Option String) (message status : String)
deriving DecidableEq, Repr

def applyAct (st : RunnerState) : RAct → RunnerState
  | RAct.inc => { st with step_counter := st.step_counter + 1 }
  | RAct.rep sid m s => report st sid m s []

def applyActs (st : RunnerState) (acts : List RAct) : RunnerState :=
  acts.foldl applyAct st

/-- The behaviour of one TEST_SEQUENCE entry as _run_test_steps observes it:
whether the stop event is set when the entry comes up, whether getattr
resolves the handler, the reporter actions the handler performs, and an
exception escaping the handler, if any. -/
structure SeqEntry where
  key : String := ""
  stopSet : Bool := false
  missing : Bool := false
  acts : List RAct := []
  exn : Option String := none
deriving Repr

/-- ConfigManager (config.py) defines no stop_on_fail property, so
evaluating self.config.stop_on_fail on it raises this AttributeError.  The
model value none for stop_on_fail stands for the absent attribute; some b
for a configuration object that does carry the flag. -/
def stopOnFailAttrError : String :=
  "AttributeError: ConfigManager object has no attribute stop_on_fail"

structure StepsOut where
  st : RunnerState
  exn : Option String
  dispatched : Nat
deriving Repr

/-- The iteration of TestRunner._run_test_steps over the remaining sequence
entries.  dispatched counts the entries whose handler was invoked.  The
stop-on-fail guard runs after each dispatched handler and only evaluates
config.stop_on_fail when overall_status is FAIL (Python short-circuit). -/
def runStepsLoop (stop_on_fail : Option Bool) :
    RunnerState → List SeqEntry → StepsOut
  | st, [] => ⟨st, none, 0⟩
  | st, e :: es =>
    if e.stopSet then
      ⟨report st none "Test detenido por el usuario." "FAIL" [], none, 0⟩
    else if e.missing then
      ⟨report st none ("Error: No se encontró el método _" ++ e.key) "FAIL" [],
        none, 0⟩
    else
      let st1 := applyActs st e.acts
      match e.exn with
      | some m => ⟨st1, some m, 1⟩
      | none =>
        if st1.result.overall_status = "FAIL" then
          match stop_on_fail with
          | none => ⟨st1, some stopOnFailAttrError, 1⟩
          | some true =>
            ⟨report st1 none "La secuencia se detuvo debido a un fallo." "INFO" [],
              none, 1⟩
          | some false =>
            let o := runStepsLoop stop_on_fail st1 es
            ⟨o.st, o.exn, o.dispatched + 1⟩
        else
          let o := runStepsLoop stop_on_fail st1 es
          ⟨o.st, o.exn, o.dispatched + 1⟩

/-- TestRunner._run_test_steps: the header report, then the loop. -/
def run_test_steps (st : RunnerState) (stop_on_fail : Option Bool)
    (entries : List SeqEntry) : StepsOut :=
  runStepsLoop stop_on_fail
    (report st none "--- Iniciando secuencia de pruebas ---" "HEADER" []) entries

/-! ## connect and disconnect phases -/

inductive Device where
  | relay
  | rs485
  | ppk2
  | ina3221
deriving DecidableEq, Repr

/-- What the environment does to one device in the connect phase: an
exception in the constructor, one in connect(), or neither. -/
structure DeviceEnv where
  ctor : Option String := none
  conn : Option String := none
deriving DecidableEq, Repr

def DeviceEnv.ok (d : DeviceEnv) : Bool := d.ctor.isNone && d.conn.isNone

structure ConnectEnv where
  relay : DeviceEnv := {}
  rs485 : DeviceEnv := {}
  ppk2 : DeviceEnv := {}
  ina3221 : DeviceEnv := {}
deriving DecidableEq, Repr

/-- Which controller attributes are non-None after the connect phase. -/
structure Handles where
  relay : Bool := false
  rs485 : Bool := false
  ppk2 : Bool := false
  ina3221 : Bool := false
deriving DecidableEq, Repr

structure ConnectOut where
  st : RunnerState
  handles : Handles
  exn : Option String
deriving Repr

/-- TestRunner._connect_all_hardware: header report, then construct and
connect the four controllers in order; the first exception aborts the
phase, leaving assigned only the handles constructed so far. -/
def connect_all_hardware (st : RunnerState) (c : ConnectEnv) : ConnectOut :=
  let st0 := report st (some "connect_hardware")
    "--- Conectando al hardware ---" "HEADER" []
  match c.relay.ctor with
  | some m => ⟨st0, ⟨false, false, false, false⟩, some m⟩
  | none =>
  match c.relay.conn with
  | some m => ⟨st0, ⟨true, false, false, false⟩, some m⟩
  | none =>
  match c.rs485.ctor with
  | some m => ⟨st0, ⟨true, false, false, false⟩, some m⟩
  | none =>
  match c.rs485.conn with
  | some m => ⟨st0, ⟨true, true, false, false⟩, some m⟩
  | none =>
  match c.ppk2.ctor with
  | some m => ⟨st0, ⟨true, true, false, false⟩, some m⟩
  | none =>
  match c.ppk2.conn with
  | some m => ⟨st0, ⟨true, true, true, false⟩, some m⟩
  | none =>
  match c.ina3221.ctor with
  | some m => ⟨st0, ⟨true, true, true, false⟩, some m⟩
  | none =>
  match c.ina3221.conn with
  | some m => ⟨st0, ⟨true, true, true, true⟩, some m⟩
  | none => ⟨st0, ⟨true, true, true, true⟩, none⟩

/-- The handles connect_all_hardware leaves assigned, as a function of the
environment. -/
def handlesOf (c : ConnectEnv) : Handles :=
  { relay := c.relay.ctor.isNone,
    rs485 := c.relay.ok && c.rs485.ctor.isNone,
    ppk2 := c.relay.ok && c.rs485.ok && c.ppk2.ctor.isNone,
    ina3221 := c.relay.ok && c.rs485.ok && c.ppk2.ok && c.ina3221.ctor.isNone }

/-- The first exception of the connect phase, as a function of the
environment. -/
def connExnOf (c : ConnectEnv) : Option String :=
  match c.relay.ctor with
  | some m => some m
  | none =>
  match c.relay.conn with
  | some m => some m
  | none =>
  match c.rs485.ctor with
  | some m => some m
  | none =>
  match c.rs485.conn with
  | some m => some m
  | none =>
  match c.ppk2.ctor with
  | some m => some m
  | none =>
  match c.ppk2.conn with
  | some m => some m
  | none =>
  match c.ina3221.ctor with
  | some m => some m
  | none => c.ina3221.conn

/-- The devices whose connect() completed. -/
def connectedDevs (c : ConnectEnv) : List Device :=
  if c.relay.ok then
    Device.relay ::
      (if c.rs485.ok then
        Device.rs485 ::
          (if c.ppk2.ok then
            Device.ppk2 :: (if c.ina3221.ok then [Device.ina3221] else [])
          else [])
      else [])
  else []

theorem connect_all_hardware_eq (st : RunnerState) (c : ConnectEnv) :
    connect_all_hardware st c
      = ⟨report st (some "connect_hardware")
            "--- Conectando al hardware ---" "HEADER" [],
          handlesOf c, connExnOf c⟩ := by
  rcases c with ⟨⟨rc, rn⟩, ⟨sc, sn⟩, ⟨pc, pn⟩, ⟨ic, icn⟩⟩
  cases rc <;> cases rn <;> cases sc <;> cases sn <;> cases pc <;> cases pn
    <;> cases ic <;> cases icn <;> rfl

/-- One disconnect outcome per device. -/
structure DisconnectEnv where
  relay : Option String := none
  rs485 : Option String := none
  ppk2 : Option String := none
  ina3221 : Option String := none
deriving DecidableEq, Repr

structure DiscOut where
  st : RunnerState
  attempted : List Device
  exn : Option String
deriving Repr

/-- TestRunner._disconnect_all_hardware: header report, then disconnect each
non-None controller in order.  There is no per-device exception guard: a
raised disconnect propagates and the remaining devices are skipped. -/
def disconnect_all_hardware (st : RunnerState) (h : Handles)
    (d : DisconnectEnv) : DiscOut :=
  let st0 := report st (some "disconnect_hardware")
    "--- Desconectando del hardware ---" "HEADER" []
  let a1 : List Device := if h.relay then [Device.relay] else []
  if h.relay && d.relay.isSome then ⟨st0, a1, d.relay⟩
  else
    let a2 := a1 ++ if h.rs485 then [Device.rs485] else []
    if h.rs485 && d.rs485.isSome then ⟨st0, a2, d.rs485⟩
    else
      let a3 := a2 ++ if h.ppk2 then [Device.ppk2] else []
      if h.ppk2 && d.ppk2.isSome then ⟨st0, a3, d.ppk2⟩
      else
        let a4 := a3 ++ if h.ina3221 then [Device.ina3221] else []
        if h.ina3221 && d.ina3221.isSome then ⟨st0, a4, d.ina3221⟩
        else ⟨st0, a4, none⟩

/-- The disconnect attempts made when no disconnect raises. -/
def attemptedOf (h : Handles) : List Device :=
  (if h.relay then [Device.relay] else [])
    ++ (if h.rs485 then [Device.rs485] else [])
    ++ (if h.ppk2 then [Device.ppk2] else [])
    ++ (if h.ina3221 then [Device.ina3221] else [])

theorem disconnect_all_hardware_clean (st : RunnerState) (h : Handles) :
    disconnect_all_hardware st h ⟨none, none, none, none⟩
      = ⟨report st (some "disconnect_hardware")
            "--- Desconectando del hardware ---" "HEADER" [],
          attemptedOf h, none⟩ := by
  rcases h with ⟨h1, h2, h3, h4⟩
  cases h1 <;> cases h2 <;> cases h3 <;> cases h4 <;> rfl

/-! ## reporting sinks and run_full_test -/

/-- The environment-determined outcome of _log_result_locally.  The method
reads self.config.log_file_path BEFORE its try block; on the repository
ConfigManager, which defines no log_file_path property, that lookup raises
AttributeError (attrMissing).  When the lookup succeeds, the path may be
unconfigured, the write may succeed, or the write may raise inside the
try. -/
inductive LocalLogOutcome where
  | attrMissing
  | noPath
  | wrote (file_path : String)
  | writeError (msg : String)
deriving DecidableEq, Repr

def LocalLogOutcome.fails : LocalLogOutcome → Bool
  | LocalLogOutcome.wrote _ => false
  | _ => true

/-- Message of the AttributeError raised by reading config.log_file_path on
ConfigManager (config.py defines no such property). -/
def logFilePathAttrError : String :=
  "AttributeError: ConfigManager object has no attribute log_file_path"

/-- TestRunner._log_result_locally: the config attribute is read before the
try block, so a missing attribute raises out of the method (the Option
String component); every other outcome is reported through _report,
failures with status FAIL. -/
def log_result_locally (st : RunnerState) :
    LocalLogOutcome → RunnerState × Option String
  | LocalLogOutcome.attrMissing => (st, some logFilePathAttrError)
  | LocalLogOutcome.noPath =>
    (report st (some "local_log")
      "Ruta de logs no configurada. No se guardará el resultado local."
      "FAIL" [], none)
  | LocalLogOutcome.wrote p =>
    (report st (some "local_log")
      ("Resultado guardado localmente en: " ++ p) "INFO" [], none)
  | LocalLogOutcome.writeError m =>
    (report st (some "local_log") ("Error al guardar el log local: " ++ m)
      "FAIL" [], none)

/-- TestRunner._send_results_to_api: success reported as INFO, failure as a
FAIL report. -/
def send_results_to_api (st : RunnerState) (success : Bool) : RunnerState :=
  if success then
    report st (some "api_send")
      "Resultados sincronizados con la plataforma." "INFO" []
  else
    report st (some "api_send")
      "Fallo al sincronizar resultados con la plataforma." "FAIL" []

/-- Everything the environment decides about one run_full_test call. -/
structure RunEnv where
  station_id : String := "UNKNOWN_STATION"
  t0 : Nat := 0
  connect : ConnectEnv := {}
  entries : List SeqEntry := []
  stop_on_fail : Option Bool := none
  tFin : Nat := 0
  disconnect : DisconnectEnv := {}
  localLog : LocalLogOutcome := LocalLogOutcome.wrote "result.json"
  apiOk : Bool := true
deriving Repr

def initState (env : RunEnv) : RunnerState :=
  ⟨TestResult.new env.station_id env.t0, [], 0⟩

structure Phase1Out where
  st : RunnerState
  handles : Handles
  caught : Option String
  dispatched : Nat
deriving Repr

/-- The try/except part of run_full_test: connect, run the steps, and catch
any exception into a critical-error FAIL report. -/
def runPhase1 (env : RunEnv) : Phase1Out :=
  let co := connect_all_hardware (initState env) env.connect
  match co.exn with
  | some m =>
    ⟨report co.st (some "critical_error") ("ERROR CRÍTICO: " ++ m) "FAIL" [],
      co.handles, some m, 0⟩
  | none =>
    let so := run_test_steps co.st env.stop_on_fail env.entries
    match so.exn with
    | some m =>
      ⟨report so.st (some "critical_error") ("ERROR CRÍTICO: " ++ m) "FAIL" [],
        co.handles, some m, so.dispatched⟩
    | none => ⟨so.st, co.handles, none, so.dispatched⟩

inductive RunOutcome where
  | returned (status : String)
  | raised (msg : String)
deriving DecidableEq, Repr

structure RunTrace where
  outcome : RunOutcome
  final : RunnerState
  caught : Option String
  discAttempted : List Device
  dispatched : Nat
  stepsAtFinalize : Nat
  preSinkStatus : String
deriving Repr

def finalizeState (st : RunnerState) (t : Nat) : RunnerState :=
  { st with result := st.result.finalize t }

/-- TestRunner.run_full_test: the try/except phase, then the finally block:
finalize, disconnect (whose exception propagates out of the method),
summary report, local persistence (whose config-attribute lookup can
likewise raise out of the method), API sync, and the returned status. -/
def run_full_test (env : RunEnv) : RunTrace :=
  let p := runPhase1 env
  let nSteps := p.st.result.steps.length
  let st3 := finalizeState p.st env.tFin
  let dout := disconnect_all_hardware st3 p.handles env.disconnect
  match dout.exn with
  | some m =>
    ⟨RunOutcome.raised m, dout.st, p.caught, dout.attempted, p.dispatched,
      nSteps, dout.st.result.overall_status⟩
  | none =>
    let st5 := report dout.st (some "final_summary")
      ("Test finalizado. Resultado: " ++ dout.st.result.overall_status)
      dout.st.result.overall_status []
    let lo := log_result_locally st5 env.localLog
    match lo.2 with
    | some m =>
      ⟨RunOutcome.raised m, lo.1, p.caught, dout.attempted, p.dispatched,
        nSteps, st5.result.overall_status⟩
    | none =>
      let st7 := send_results_to_api lo.1 env.apiOk
      ⟨RunOutcome.returned st7.result.overall_status, st7, p.caught,
        dout.attempted, p.dispatched, nSteps, st5.result.overall_status⟩

/-! ## invariants of the runner state -/

/-- The (status, message) view of the recorded steps. -/
def stepPairs (st : RunnerState) : List (String × String) :=
  st.result.steps.map fun s => (s.status, s.message)

/-- The (status, message) view of the callback stream. -/
def callPairs (st : RunnerState) : List (String × String) :=
  st.calls.map fun c => (c.status, c.message)

/-- How any later phase extends the runner state: steps are append-only,
end_time is untouched, FAIL is sticky, step/callback alignment is
preserved, and overall_status stays in the PASS/FAIL value set. -/
def Ext (st st' : RunnerState) : Prop :=
  (∃ l, st'.result.steps = st.result.steps ++ l)
  ∧ st'.result.end_time = st.result.end_time
  ∧ (st.result.overall_status = "FAIL" → st'.result.overall_status = "FAIL")
  ∧ (stepPairs st = callPairs st → stepPairs st' = callPairs st')
  ∧ ((st.result.overall_status = "PASS" ∨ st.result.overall_status = "FAIL")
      → (st'.result.overall_status = "PASS"
          ∨ st'.result.overall_status = "FAIL"))

theorem ext_refl (st : RunnerState) : Ext st st :=
  ⟨⟨[], by simp⟩, rfl, id, id, id⟩

theorem ext_trans {a b c : RunnerState} (h1 : Ext a b) (h2 : Ext b c) :
    Ext a c := by
  obtain ⟨⟨l1, hl1⟩, he1, hf1, ha1, hs1⟩ := h1
  obtain ⟨⟨l2, hl2⟩, he2, hf2, ha2, hs2⟩ := h2
  exact ⟨⟨l1 ++ l2, by rw [hl2, hl1, List.append_assoc]⟩,
    he2.trans he1, fun h => hf2 (hf1 h), fun h => ha2 (ha1 h),
    fun h => hs2 (hs1 h)⟩

theorem ext_steps_mem {a b : RunnerState} (h : Ext a b) {s : TestStepResult}
    (hs : s ∈ a.result.steps) : s ∈ b.result.steps := by
  obtain ⟨l, hl⟩ := h.1
  rw [hl]
  exact List.mem_append_left _ hs

theorem report_steps (st : RunnerState) (sid : Option String)
    (m s : String) (d : List (String × String)) :
    (report st sid m s d).result.steps
      = st.result.steps
          ++ [⟨"Paso " ++ toString st.step_counter, s, m, d⟩] :=
  add_step_steps _ _

theorem report_end_time (st : RunnerState) (sid : Option String)
    (m s : String) (d : List (String × String)) :
    (report st sid m s d).result.end_time = st.result.end_time :=
  add_step_end_time _ _

theorem report_overall (st : RunnerState) (sid : Option String)
    (m s : String) (d : List (String × String)) :
    (report st sid m s d).result.overall_status
      = if s = "FAIL" then "FAIL" else st.result.overall_status :=
  add_step_overall _ _

theorem report_stepPairs (st : RunnerState) (sid : Option String)
    (m s : String) (d : List (String × String)) :
    stepPairs (report st sid m s d) = stepPairs st ++ [(s, m)] := by
  unfold stepPairs
  rw [report_steps, List.map_append]
  rfl

theorem report_callPairs (st : RunnerState) (sid : Option String)
    (m s : String) (d : List (String × String)) :
    callPairs (report st sid m s d) = callPairs st ++ [(s, m)] := by
  unfold callPairs report
  rw [List.map_append]
  rfl

theorem report_ext (st : RunnerState) (sid : Option String)
    (m s : String) (d : List (String × String)) :
    Ext st (report st sid m s d) := by
  refine ⟨⟨_, report_steps st sid m s d⟩, report_end_time st sid m s d,
    ?_, ?_, ?_⟩
  · intro h
    rw [report_overall]
    split <;> simp [h]
  · intro h
    rw [report_stepPairs, report_callPairs, h]
  · intro h
    rw [report_overall]
    split
    · exact Or.inr rfl
    · exact h

theorem applyAct_ext (st : RunnerState) (a : RAct) : Ext st (applyAct st a) := by
  cases a with
  | inc => exact ⟨⟨[], by simp [applyAct]⟩, rfl, id, id, id⟩
  | rep sid m s => exact report_ext st sid m s []

theorem applyActs_ext (acts : List RAct) :
    ∀ st : RunnerState, Ext st (applyActs st acts) := by
  induction acts with
  | nil => intro st; exact ext_refl st
  | cons a as ih =>
    intro st
    exact ext_trans (applyAct_ext st a) (ih (applyAct st a))

theorem runStepsLoop_ext (cfg : Option Bool) (es : List SeqEntry) :
    ∀ st : RunnerState, Ext st (runStepsLoop cfg st es).st := by
  induction es with
  | nil => intro st; exact ext_refl st
  | cons e es ih =>
    intro st
    simp only [runStepsLoop]
    by_cases h1 : e.stopSet
    · simp only [h1, if_true]
      exact report_ext st none "Test detenido por el usuario." "FAIL" []
    · simp only [h1, if_false, Bool.false_eq_true]
      by_cases h2 : e.missing
      · simp only [h2, if_true]
        exact report_ext st none _ "FAIL" []
      · simp only [h2, if_false, Bool.false_eq_true]
        cases h3 : e.exn with
        | some m => exact applyActs_ext e.acts st
        | none =>
          by_cases h4 :
              (applyActs st e.acts).result.overall_status = "FAIL"
          · simp only [h4, if_true]
            cases cfg with
            | none => exact applyActs_ext e.acts st
            | some b =>
              cases b with
              | true =>
                exact ext_trans (applyActs_ext e.acts st)
                  (report_ext _ none _ "INFO" [])
              | false =>
                exact ext_trans (applyActs_ext e.acts st)
                  (ih (applyActs st e.acts))
          · simp only [h4, if_false]
            exact ext_trans (applyActs_ext e.acts st)
              (ih (applyActs st e.acts))

theorem run_test_steps_ext (st : RunnerState) (cfg : Option Bool)
    (entries : List SeqEntry) : Ext st (run_test_steps st cfg entries).st :=
  ext_trans (report_ext st none _ "HEADER" []) (runStepsLoop_ext cfg entries _)

theorem log_result_locally_ext (st : RunnerState) (o : LocalLogOutcome) :
    Ext st (log_result_locally st o).1 := by
  cases o with
  | attrMissing => exact ext_refl st
  | noPath => exact report_ext st (some "local_log") _ "FAIL" []
  | wrote p => exact report_ext st (some "local_log") _ "INFO" []
  | writeError m => exact report_ext st (some "local_log") _ "FAIL" []

theorem log_result_locally_noraise (st : RunnerState) (o : LocalLogOutcome)
    (ho : o ≠ LocalLogOutcome.attrMissing) :
    (log_result_locally st o).2 = none := by
  cases o with
  | attrMissing => exact absurd rfl ho
  | noPath => rfl
  | wrote p => rfl
  | writeError m => rfl

theorem send_results_to_api_ext (st : RunnerState) (b : Bool) :
    Ext st (send_results_to_api st b) := by
  unfold send_results_to_api
  split
  · exact report_ext st (some "api_send") _ "INFO" []
  · exact report_ext st (some "api_send") _ "FAIL" []

theorem log_result_locally_overall (st : RunnerState) (o : LocalLogOutcome)
    (ho : o ≠ LocalLogOutcome.attrMissing) :
    (log_result_locally st o).1.result.overall_status
      = if o.fails then "FAIL" else st.result.overall_status := by
  cases o with
  | attrMissing => exact absurd rfl ho
  | noPath =>
    show (report st (some "local_log") _ "FAIL" []).result.overall_status = _
    rw [report_overall]
    rfl
  | wrote p =>
    show (report st (some "local_log") _ "INFO" []).result.overall_status = _
    rw [report_overall]
    rfl
  | writeError m =>
    show (report st (some "local_log") _ "FAIL" []).result.overall_status = _
    rw [report_overall]
    rfl

theorem send_results_to_api_overall (st : RunnerState) (b : Bool) :
    (send_results_to_api st b).result.overall_status
      = if b then st.result.overall_status else "FAIL" := by
  cases b with
  | true => rw [send_results_to_api, if_pos rfl, report_overall]; rfl
  | false => rw [send_results_to_api, if_neg (by simp), report_overall]; rfl

theorem runPhase1_ext (env : RunEnv) : Ext (initState env) (runPhase1 env).st := by
  unfold runPhase1
  rw [connect_all_hardware_eq]
  cases hc : connExnOf env.connect with
  | some m =>
    simp only
    exact ext_trans (report_ext _ (some "connect_hardware") _ "HEADER" [])
      (report_ext _ (some "critical_error") _ "FAIL" [])
  | none =>
    simp only
    cases hs : (run_test_steps
        (report (initState env) (some "connect_hardware")
          "--- Conectando al hardware ---" "HEADER" [])
        env.stop_on_fail env.entries).exn with
    | some m =>
      simp only
      exact ext_trans (report_ext _ (some "connect_hardware") _ "HEADER" [])
        (ext_trans (run_test_steps_ext _ env.stop_on_fail env.entries)
          (report_ext _ (some "critical_error") _ "FAIL" []))
    | none =>
      simp only
      exact ext_trans (report_ext _ (some "connect_hardware") _ "HEADER" [])
        (run_test_steps_ext _ env.stop_on_fail env.entries)

theorem runPhase1_handles (env : RunEnv) :
    (runPhase1 env).handles = handlesOf env.connect := by
  unfold runPhase1
  rw [connect_all_hardware_eq]
  cases connExnOf env.connect with
  | some m => rfl
  | none =>
    simp only
    cases (run_test_steps
        (report (initState env) (some "connect_hardware")
          "--- Conectando al hardware ---" "HEADER" [])
        env.stop_on_fail env.entries).exn <;> rfl

theorem runPhase1_caught_fail (env : RunEnv) (m : String) :
    (runPhase1 env).caught = some m →
    ∃ s ∈ (runPhase1 env).st.result.steps,
      s.status = "FAIL" ∧ s.message = "ERROR CRÍTICO: " ++ m := by
  unfold runPhase1
  rw [connect_all_hardware_eq]
  cases connExnOf env.connect with
  | some m0 =>
    simp only
    intro h
    have hm : m0 = m := by simpa using h
    subst hm
    rw [report_steps]
    exact ⟨_, List.mem_append_right _ (List.mem_singleton.mpr rfl),
      rfl, rfl⟩
  | none =>
    simp only
    cases (run_test_steps
        (report (initState env) (some "connect_hardware")
          "--- Conectando al hardware ---" "HEADER" [])
        env.stop_on_fail env.entries).exn with
    | some m0 =>
      simp only
      intro h
      have hm : m0 = m := by simpa using h
      subst hm
      rw [report_steps]
      exact ⟨_, List.mem_append_right _ (List.mem_singleton.mpr rfl),
        rfl, rfl⟩
    | none =>
      intro h
      exact Option.noConfusion h

/-! ## run-level lemmas -/

theorem disconnect_st_eq (st : RunnerState) (h : Handles) (d : DisconnectEnv) :
    (disconnect_all_hardware st h d).st
      = report st (some "disconnect_hardware")
          "--- Desconectando del hardware ---" "HEADER" [] := by
  rcases h with ⟨h1, h2, h3, h4⟩
  rcases d with ⟨d1, d2, d3, d4⟩
  cases h1 <;> cases h2 <;> cases h3 <;> cases h4 <;> cases d1 <;> cases d2
    <;> cases d3 <;> cases d4 <;> rfl

theorem disconnect_relay_raise (st : RunnerState) (h : Handles)
    (d : DisconnectEnv) (m : String) (hr : h.relay = true)
    (hm : d.relay = some m) :
    (disconnect_all_hardware st h d).attempted = [Device.relay]
    ∧ (disconnect_all_hardware st h d).exn = some m := by
  unfold disconnect_all_hardware
  rw [hr, hm]
  simp

/-- Every device that connected successfully has its handle assigned, and
its disconnect is attempted when no disconnect raises. -/
def Handles.created (h : Handles) : Device → Bool
  | Device.relay => h.relay
  | Device.rs485 => h.rs485
  | Device.ppk2 => h.ppk2
  | Device.ina3221 => h.ina3221

theorem created_mem_attemptedOf (h : Handles) (d : Device)
    (hc : h.created d = true) : d ∈ attemptedOf h := by
  cases d <;> simp_all [Handles.created, attemptedOf]

theorem DeviceEnv.ok_ctor {x : DeviceEnv} (hx : x.ok = true) :
    x.ctor.isNone = true := by
  unfold DeviceEnv.ok at hx
  exact (Bool.and_eq_true _ _ ▸ hx).1

theorem connected_mem_attempted (c : ConnectEnv) (d : Device)
    (hmem : d ∈ connectedDevs c) : d ∈ attemptedOf (handlesOf c) := by
  apply created_mem_attemptedOf
  by_cases h1 : c.relay.ok = true
  · by_cases h2 : c.rs485.ok = true
    · by_cases h3 : c.ppk2.ok = true
      · by_cases h4 : c.ina3221.ok = true
        · cases d <;>
            simp [Handles.created, handlesOf, h1, h2, h3, h4,
              DeviceEnv.ok_ctor h1, DeviceEnv.ok_ctor h2,
              DeviceEnv.ok_ctor h3, DeviceEnv.ok_ctor h4]
        · simp [connectedDevs, h1, h2, h3, h4] at hmem
          rcases hmem with rfl | rfl | rfl <;>
            simp [Handles.created, handlesOf, h1, h2, h3,
              DeviceEnv.ok_ctor h1, DeviceEnv.ok_ctor h2,
              DeviceEnv.ok_ctor h3]
      · simp [connectedDevs, h1, h2, h3] at hmem
        rcases hmem with rfl | rfl <;>
          simp [Handles.created, handlesOf, h1, h2,
            DeviceEnv.ok_ctor h1, DeviceEnv.ok_ctor h2]
    · simp [connectedDevs, h1, h2] at hmem
      subst hmem
      simp [Handles.created, handlesOf, DeviceEnv.ok_ctor h1]
  · simp [connectedDevs, h1] at hmem


/-- The state after the disconnect-phase header report in the finally
block. -/
def discHeaderState (env : RunEnv) : RunnerState :=
  report (finalizeState (runPhase1 env).st env.tFin)
    (some "disconnect_hardware") "--- Desconectando del hardware ---"
    "HEADER" []

/-- The state after the final-summary report. -/
def summaryState (env : RunEnv) : RunnerState :=
  report (discHeaderState env) (some "final_summary")
    ("Test finalizado. Resultado: "
      ++ (discHeaderState env).result.overall_status)
    (discHeaderState env).result.overall_status []

/-- The state after the local-log and API-sync reports (when the local-log
attribute lookup does not raise). -/
def sinkState (env : RunEnv) : RunnerState :=
  send_results_to_api
    (log_result_locally (summaryState env) env.localLog).1 env.apiOk

theorem run_full_test_clean_eq (env : RunEnv)
    (hd : env.disconnect = ⟨none, none, none, none⟩)
    (hl : env.localLog ≠ LocalLogOutcome.attrMissing) :
    run_full_test env
      = ⟨RunOutcome.returned (sinkState env).result.overall_status,
          sinkState env, (runPhase1 env).caught,
          attemptedOf (runPhase1 env).handles, (runPhase1 env).dispatched,
          (runPhase1 env).st.result.steps.length,
          (summaryState env).result.overall_status⟩ := by
  simp only [run_full_test, hd, sinkState]
  rw [disconnect_all_hardware_clean]
  cases hL : env.localLog with
  | attrMissing => exact absurd hL hl
  | noPath => rfl
  | wrote p => rfl
  | writeError m => rfl

theorem run_full_test_attr_eq (env : RunEnv)
    (hd : env.disconnect = ⟨none, none, none, none⟩)
    (hl : env.localLog = LocalLogOutcome.attrMissing) :
    run_full_test env
      = ⟨RunOutcome.raised logFilePathAttrError, summaryState env,
          (runPhase1 env).caught, attemptedOf (runPhase1 env).handles,
          (runPhase1 env).dispatched,
          (runPhase1 env).st.result.steps.length,
          (summaryState env).result.overall_status⟩ := by
  simp only [run_full_test, hd, hl]
  rw [disconnect_all_hardware_clean]
  rfl

theorem ext_fin_to_summary (env : RunEnv) :
    Ext (finalizeState (runPhase1 env).st env.tFin) (summaryState env) := by
  have ea : Ext (finalizeState (runPhase1 env).st env.tFin)
      (discHeaderState env) := report_ext _ _ _ _ _
  have eb : Ext (discHeaderState env) (summaryState env) :=
    report_ext _ _ _ _ _
  exact ext_trans ea eb

theorem ext_fin_to_sink (env : RunEnv) :
    Ext (finalizeState (runPhase1 env).st env.tFin) (sinkState env) := by
  have ec : Ext (summaryState env)
      (log_result_locally (summaryState env) env.localLog).1 :=
    log_result_locally_ext _ _
  have ed : Ext (log_result_locally (summaryState env) env.localLog).1
      (sinkState env) := send_results_to_api_ext _ _
  exact ext_trans (ext_fin_to_summary env) (ext_trans ec ed)

/-- The finally block of run_full_test under an environment whose
disconnects succeed and whose local-log attribute lookup does not raise:
the run returns its overall status, disconnect is attempted on every
assigned handle, end_time carries the finalize clock, steps keep
accumulating after finalize, a caught exception left a FAIL step, and the
returned status is FAIL exactly when the run was FAIL before the sinks or
one of the sinks failed. -/
theorem run_full_test_clean (env : RunEnv)
    (hd : env.disconnect = ⟨none, none, none, none⟩)
    (hl : env.localLog ≠ LocalLogOutcome.attrMissing) :
    (run_full_test env).outcome
        = RunOutcome.returned (run_full_test env).final.result.overall_status
    ∧ (run_full_test env).discAttempted = attemptedOf (handlesOf env.connect)
    ∧ (run_full_test env).final.result.end_time = some env.tFin
    ∧ (run_full_test env).stepsAtFinalize
        ≤ (run_full_test env).final.result.steps.length
    ∧ (∀ m, (run_full_test env).caught = some m →
        ∃ s ∈ (run_full_test env).final.result.steps,
          s.status = "FAIL" ∧ s.message = "ERROR CRÍTICO: " ++ m)
    ∧ ((run_full_test env).final.result.overall_status = "FAIL"
        ↔ ((run_full_test env).preSinkStatus = "FAIL"
            ∨ env.localLog.fails = true ∨ env.apiOk = false))
    ∧ ((run_full_test env).final.result.overall_status = "PASS"
        ∨ (run_full_test env).final.result.overall_status = "FAIL") := by
  have heq := run_full_test_clean_eq env hd hl
  have e37 := ext_fin_to_sink env
  refine ⟨?_, ?_, ?_, ?_, ?_, ?_, ?_⟩
  · rw [heq]
  · rw [heq]
    show attemptedOf (runPhase1 env).handles = _
    rw [runPhase1_handles]
  · rw [heq]
    show (sinkState env).result.end_time = some env.tFin
    rw [e37.2.1]
    rfl
  · rw [heq]
    show (runPhase1 env).st.result.steps.length
        ≤ (sinkState env).result.steps.length
    obtain ⟨l, hl2⟩ := e37.1
    rw [hl2, List.length_append]
    exact Nat.le_add_right _ _
  · rw [heq]
    intro m hm
    obtain ⟨s, hs, hstat, hmsg⟩ := runPhase1_caught_fail env m hm
    have hs3 : s ∈ (finalizeState (runPhase1 env).st env.tFin).result.steps := hs
    exact ⟨s, ext_steps_mem e37 hs3, hstat, hmsg⟩
  · rw [heq]
    show (send_results_to_api
        (log_result_locally (summaryState env) env.localLog).1
        env.apiOk).result.overall_status = "FAIL"
      ↔ ((summaryState env).result.overall_status = "FAIL"
          ∨ env.localLog.fails = true ∨ env.apiOk = false)
    rw [send_results_to_api_overall, log_result_locally_overall _ _ hl]
    cases hA : env.apiOk <;> cases hF : env.localLog.fails <;> simp
  · rw [heq]
    show (sinkState env).result.overall_status = "PASS"
        ∨ (sinkState env).result.overall_status = "FAIL"
    have hp : (runPhase1 env).st.result.overall_status = "PASS"
        ∨ (runPhase1 env).st.result.overall_status = "FAIL" :=
      (runPhase1_ext env).2.2.2.2 (Or.inl rfl)
    have hp3 : (finalizeState (runPhase1 env).st env.tFin).result.overall_status
          = "PASS"
        ∨ (finalizeState (runPhase1 env).st env.tFin).result.overall_status
          = "FAIL" := hp
    exact e37.2.2.2.2 hp3

/-- end_time and the post-finalize step growth hold on every run with clean
disconnects, whether or not the local-log attribute lookup raises. -/
theorem run_final_time_steps (env : RunEnv)
    (hd : env.disconnect = ⟨none, none, none, none⟩) :
    (run_full_test env).final.result.end_time = some env.tFin
    ∧ (run_full_test env).stepsAtFinalize
        ≤ (run_full_test env).final.result.steps.length := by
  by_cases hl : env.localLog = LocalLogOutcome.attrMissing
  · rw [run_full_test_attr_eq env hd hl]
    have e := ext_fin_to_summary env
    constructor
    · show (summaryState env).result.end_time = some env.tFin
      rw [e.2.1]
      rfl
    · show (runPhase1 env).st.result.steps.length
          ≤ (summaryState env).result.steps.length
      obtain ⟨l, hl2⟩ := e.1
      rw [hl2, List.length_append]
      exact Nat.le_add_right _ _
  · exact ⟨(run_full_test_clean env hd hl).2.2.1,
      (run_full_test_clean env hd hl).2.2.2.1⟩

/-- Disconnect attempts on connected handles and the caught-exception FAIL
step hold on every run with clean disconnects, whether or not the
local-log attribute lookup raises. -/
theorem run_caught_disc (env : RunEnv)
    (hd : env.disconnect = ⟨none, none, none, none⟩) :
    (∀ d ∈ connectedDevs env.connect, d ∈ (run_full_test env).discAttempted)
    ∧ (∀ m, (run_full_test env).caught = some m →
        ∃ s ∈ (run_full_test env).final.result.steps,
          s.status = "FAIL" ∧ s.message = "ERROR CRÍTICO: " ++ m) := by
  by_cases hl : env.localLog = LocalLogOutcome.attrMissing
  · rw [run_full_test_attr_eq env hd hl]
    constructor
    · intro d hdm
      show d ∈ attemptedOf (runPhase1 env).handles
      rw [runPhase1_handles]
      exact connected_mem_attempted env.connect d hdm
    · intro m hm
      obtain ⟨s, hs, h1, h2⟩ := runPhase1_caught_fail env m hm
      have hs3 : s ∈ (finalizeState (runPhase1 env).st env.tFin).result.steps := hs
      exact ⟨s, ext_steps_mem (ext_fin_to_summary env) hs3, h1, h2⟩
  · obtain ⟨_, h2, _, _, h5, _, _⟩ := run_full_test_clean env hd hl
    constructor
    · intro d hdm
      rw [h2]
      exact connected_mem_attempted env.connect d hdm
    · exact h5

/-- The step/callback alignment holds at the end of every run, raised or
returned. -/
theorem run_full_test_aligned (env : RunEnv) :
    stepPairs (run_full_test env).final
      = callPairs (run_full_test env).final := by
  have h1 : stepPairs (runPhase1 env).st = callPairs (runPhase1 env).st :=
    (runPhase1_ext env).2.2.2.1 rfl
  have h3 : stepPairs (finalizeState (runPhase1 env).st env.tFin)
      = callPairs (finalizeState (runPhase1 env).st env.tFin) := h1
  have ea : Ext (finalizeState (runPhase1 env).st env.tFin)
      (discHeaderState env) := report_ext _ _ _ _ _
  have h4 : stepPairs (discHeaderState env)
      = callPairs (discHeaderState env) := ea.2.2.2.1 h3
  have eb : Ext (discHeaderState env) (summaryState env) :=
    report_ext _ _ _ _ _
  have h5 : stepPairs (summaryState env) = callPairs (summaryState env) :=
    eb.2.2.2.1 h4
  simp only [run_full_test]
  cases hdx : (disconnect_all_hardware
      (finalizeState (runPhase1 env).st env.tFin)
      (runPhase1 env).handles env.disconnect).exn with
  | some m =>
    simp only
    rw [disconnect_st_eq]
    exact h4
  | none =>
    simp only
    rw [disconnect_st_eq]
    cases hL : env.localLog with
    | attrMissing => exact h5
    | noPath =>
      have ec : Ext (summaryState env)
          (log_result_locally (summaryState env) LocalLogOutcome.noPath).1 :=
        log_result_locally_ext _ _
      have ed := send_results_to_api_ext
        (log_result_locally (summaryState env) LocalLogOutcome.noPath).1
        env.apiOk
      exact (ext_trans ec ed).2.2.2.1 h5
    | wrote p =>
      have ec : Ext (summaryState env)
          (log_result_locally (summaryState env)
            (LocalLogOutcome.wrote p)).1 :=
        log_result_locally_ext _ _
      have ed := send_results_to_api_ext
        (log_result_locally (summaryState env) (LocalLogOutcome.wrote p)).1
        env.apiOk
      exact (ext_trans ec ed).2.2.2.1 h5
    | writeError m2 =>
      have ec : Ext (summaryState env)
          (log_result_locally (summaryState env)
            (LocalLogOutcome.writeError m2)).1 :=
        log_result_locally_ext _ _
      have ed := send_results_to_api_ext
        (log_result_locally (summaryState env)
          (LocalLogOutcome.writeError m2)).1
        env.apiOk
      exact (ext_trans ec ed).2.2.2.1 h5

/-- A raised relay disconnect propagates out of run_full_test and skips the
remaining disconnects. -/
theorem run_full_test_disc_raise (env : RunEnv) (m : String)
    (hr : (handlesOf env.connect).relay = true)
    (hm : env.disconnect.relay = some m) :
    (run_full_test env).outcome = RunOutcome.raised m
    ∧ (run_full_test env).discAttempted = [Device.relay] := by
  have hr2 : (runPhase1 env).handles.relay = true := by
    rw [runPhase1_handles]
    exact hr
  have hdr := disconnect_relay_raise
    (finalizeState (runPhase1 env).st env.tFin) (runPhase1 env).handles
    env.disconnect m hr2 hm
  simp only [run_full_test]
  rw [hdr.2]
  exact ⟨rfl, hdr.1⟩

/-! ## claims about run_full_test -/

def c1env : RunEnv := { localLog := LocalLogOutcome.attrMissing }

/-- Claim C1 counterexample: with the repository ConfigManager, which
defines no log_file_path property (LocalLogOutcome.attrMissing), a run
with no connect or step exception at all (caught = none) and successful
disconnects still ends with run_full_test raising AttributeError from the
local-log phase of its finally block instead of returning a status. -/
theorem claim_C1_counterexample :
    (run_full_test c1env).caught = none
    ∧ (run_full_test c1env).outcome
        = RunOutcome.raised logFilePathAttrError := by
  refine ⟨?_, ?_⟩ <;> decide

/-- Claim C1 amended: any exception during the connect phase or a step
handler is caught and converted into a FAIL step, disconnect is still
invoked on every successfully connected device handle, and finalize() is
still called (end_time set); but run_full_test returns the final
overall_status string (PASS or FAIL) only when the local-log phase
configuration-attribute lookup succeeds — with the repository
ConfigManager, which defines no log_file_path property, reading
self.config.log_file_path raises AttributeError inside the finally block
on every run, and run_full_test raises instead of returning. -/
theorem claim_C1_run_boundary (env : RunEnv)
    (hd : env.disconnect = ⟨none, none, none, none⟩) :
    (env.localLog ≠ LocalLogOutcome.attrMissing →
      (run_full_test env).outcome
          = RunOutcome.returned (run_full_test env).final.result.overall_status
      ∧ ((run_full_test env).final.result.overall_status = "PASS"
          ∨ (run_full_test env).final.result.overall_status = "FAIL"))
    ∧ (env.localLog = LocalLogOutcome.attrMissing →
        (run_full_test env).outcome = RunOutcome.raised logFilePathAttrError)
    ∧ (∀ d ∈ connectedDevs env.connect, d ∈ (run_full_test env).discAttempted)
    ∧ (run_full_test env).final.result.end_time = some env.tFin
    ∧ (∀ m, (run_full_test env).caught = some m →
        ∃ s ∈ (run_full_test env).final.result.steps,
          s.status = "FAIL" ∧ s.message = "ERROR CRÍTICO: " ++ m) := by
  refine ⟨?_, ?_, (run_caught_disc env hd).1, (run_final_time_steps env hd).1,
    (run_caught_disc env hd).2⟩
  · intro hl
    exact ⟨(run_full_test_clean env hd hl).1,
      (run_full_test_clean env hd hl).2.2.2.2.2.2⟩
  · intro hl
    rw [run_full_test_attr_eq env hd hl]

theorem claim_C1_run_boundary_witness :
    (run_full_test ({} : RunEnv)).outcome
        = RunOutcome.returned
            (run_full_test ({} : RunEnv)).final.result.overall_status
    ∧ (run_full_test c1env).outcome
        = RunOutcome.raised logFilePathAttrError :=
  ⟨((claim_C1_run_boundary {} rfl).1 (by decide)).1,
    (claim_C1_run_boundary c1env rfl).2.1 rfl⟩

def c3env : RunEnv := { apiOk := false }

/-- Claim C3 counterexample: with every hardware phase succeeding and no
failing step, the overall status before the reporting sinks is PASS, yet a
failed API sync makes run_full_test return FAIL: the sink failure changed
the reported result. -/
theorem claim_C3_counterexample :
    (run_full_test c3env).preSinkStatus = "PASS"
    ∧ (run_full_test c3env).outcome = RunOutcome.returned "FAIL" := by
  refine ⟨?_, ?_⟩ <;> decide

/-- Claim C3 amended: a failing reporting sink is reported through _report
as a FAIL step, which flips overall_status; on runs where the local-log
configuration-attribute lookup does not raise (see C1), run_full_test
returns FAIL exactly when the run was already FAIL before the sink
attempts, or the local write failed, or the API sync failed.  Only when
both sinks succeed is the returned status the pre-sink status. -/
theorem claim_C3_sink_failure_changes_status (env : RunEnv)
    (hd : env.disconnect = ⟨none, none, none, none⟩)
    (hl : env.localLog ≠ LocalLogOutcome.attrMissing) :
    (run_full_test env).outcome
        = RunOutcome.returned (run_full_test env).final.result.overall_status
    ∧ ((run_full_test env).final.result.overall_status = "FAIL"
        ↔ ((run_full_test env).preSinkStatus = "FAIL"
            ∨ env.localLog.fails = true ∨ env.apiOk = false)) :=
  ⟨(run_full_test_clean env hd hl).1,
    (run_full_test_clean env hd hl).2.2.2.2.2.1⟩

theorem claim_C3_sink_failure_changes_status_witness :
    (run_full_test c3env).outcome
        = RunOutcome.returned (run_full_test c3env).final.result.overall_status
    ∧ ((run_full_test c3env).final.result.overall_status = "FAIL"
        ↔ ((run_full_test c3env).preSinkStatus = "FAIL"
            ∨ c3env.localLog.fails = true ∨ c3env.apiOk = false)) :=
  ⟨(claim_C3_sink_failure_changes_status c3env rfl (by decide)).1,
    (claim_C3_sink_failure_changes_status c3env rfl (by decide)).2⟩

/-- Claim C4 counterexample: finalize() is not idempotent — a second call
at a later clock overwrites end_time — and in a concrete run, step records
(summary, local log, API sync) are appended after end_time is set. -/
theorem claim_C4_counterexample :
    (((TestResult.new "ST1" 0).finalize 5).finalize 7).end_time
        ≠ ((TestResult.new "ST1" 0).finalize 5).end_time
    ∧ (run_full_test ({ station_id := "ST1" } : RunEnv)).stepsAtFinalize
        < (run_full_test
            ({ station_id := "ST1" } : RunEnv)).final.result.steps.length := by
  refine ⟨?_, ?_⟩ <;> decide

/-- Claim C4 amended: end_time is null before the first finalize() call and
equals the finalize-time clock afterwards, hence at least start_time
whenever the clock has not gone backwards; finalize() overwrites end_time on
every call, so a second call at a later clock changes it rather than being
idempotent; run_full_test calls finalize exactly once, in its finally block,
but the summary, local-log and API-sync step records are appended after
end_time has been set. -/
theorem claim_C4_finalize_overwrites (sid : String) (t0 t1 t2 : Nat)
    (env : RunEnv) (h1 : t0 ≤ t1)
    (hd : env.disconnect = ⟨none, none, none, none⟩) :
    (TestResult.new sid t0).end_time = none
    ∧ ((TestResult.new sid t0).finalize t1).end_time = some t1
    ∧ (∀ e, ((TestResult.new sid t0).finalize t1).end_time = some e →
        ((TestResult.new sid t0).finalize t1).start_time ≤ e)
    ∧ (((TestResult.new sid t0).finalize t1).finalize t2).end_time = some t2
    ∧ (run_full_test env).final.result.end_time = some env.tFin
    ∧ (run_full_test env).stepsAtFinalize
        ≤ (run_full_test env).final.result.steps.length := by
  refine ⟨rfl, rfl, ?_, rfl, (run_final_time_steps env hd).1,
    (run_final_time_steps env hd).2⟩
  intro e he
  have h2 : t1 = e := by simpa [TestResult.finalize] using he
  subst h2
  exact h1

theorem claim_C4_finalize_overwrites_witness :
    ((TestResult.new "S" 0).finalize 1).end_time = some 1
    ∧ (((TestResult.new "S" 0).finalize 1).finalize 2).end_time = some 2 :=
  ⟨(claim_C4_finalize_overwrites "S" 0 1 2 {} (by decide) rfl).2.1,
    (claim_C4_finalize_overwrites "S" 0 1 2 {} (by decide) rfl).2.2.2.1⟩

/-- Claim C5 counterexample: the callback does not carry the step record
name: _report names the stored step after the step counter while the
callback receives the step_id argument, so the identity of the i-th step
record and the i-th callback invocation differs at the very first reported
event of a run. -/
theorem claim_C5_counterexample :
    ¬ ((run_full_test ({ t0 := 3 } : RunEnv)).final.result.steps.map
          (fun s => some s.step_name)
        = (run_full_test ({ t0 := 3 } : RunEnv)).final.calls.map
          (fun c => c.step_id)) := by
  decide

/-- Claim C5 amended: the recorded steps are exactly in execution order and
match the callback invocations in count, and the i-th step record and the
i-th callback carry the same status and message; the step record name
("Paso <counter>") and the callback step_id argument differ in general. -/
theorem claim_C5_steps_match_callbacks (env : RunEnv) :
    stepPairs (run_full_test env).final = callPairs (run_full_test env).final
    ∧ (run_full_test env).final.result.steps.length
        = (run_full_test env).final.calls.length := by
  refine ⟨run_full_test_aligned env, ?_⟩
  have h := congrArg List.length (run_full_test_aligned env)
  simpa [stepPairs, callPairs] using h

def c6env : RunEnv := { disconnect := { relay := some "boom" } }

/-- Claim C6 counterexample: with all four controllers connected, a raised
relay disconnect aborts _disconnect_all_hardware: rs485 (whose handle was
created) never gets a disconnect attempt and the exception propagates out
of run_full_test. -/
theorem claim_C6_counterexample :
    (handlesOf c6env.connect).rs485 = true
    ∧ Device.rs485 ∉ (run_full_test c6env).discAttempted
    ∧ (run_full_test c6env).outcome = RunOutcome.raised "boom" := by
  refine ⟨rfl, ?_, ?_⟩ <;> decide

/-- Claim C6 amended: disconnect is attempted in order relay, rs485, ppk2,
ina3221 on each non-None handle, but only until the first disconnect that
raises: a raised relay disconnect leaves only the relay attempted and the
exception propagates out of run_full_test, skipping the other devices;
only when no disconnect raises is disconnect invoked on every created
handle. -/
theorem claim_C6_disconnect_not_independent (st st2 : RunnerState)
    (h h2 : Handles) (denv : DisconnectEnv) (m : String) (env : RunEnv)
    (hr : h.relay = true) (hm : denv.relay = some m)
    (hr2 : (handlesOf env.connect).relay = true)
    (hm2 : env.disconnect.relay = some m) :
    (disconnect_all_hardware st h denv).attempted = [Device.relay]
    ∧ (disconnect_all_hardware st h denv).exn = some m
    ∧ (disconnect_all_hardware st2 h2 ⟨none, none, none, none⟩).exn = none
    ∧ (∀ d, h2.created d = true →
        d ∈ (disconnect_all_hardware st2 h2 ⟨none, none, none, none⟩).attempted)
    ∧ (run_full_test env).outcome = RunOutcome.raised m
    ∧ (run_full_test env).discAttempted = [Device.relay] := by
  obtain ⟨ha, hb⟩ := disconnect_relay_raise st h denv m hr hm
  obtain ⟨hc, hdd⟩ := run_full_test_disc_raise env m hr2 hm2
  refine ⟨ha, hb, ?_, ?_, hc, hdd⟩
  · rw [disconnect_all_hardware_clean]
  · intro d hcr
    rw [disconnect_all_hardware_clean]
    exact created_mem_attemptedOf h2 d hcr

theorem claim_C6_disconnect_not_independent_witness :
    (disconnect_all_hardware (initState {}) ⟨true, true, true, true⟩
        ({ relay := some "X" } : DisconnectEnv)).attempted = [Device.relay]
    ∧ (disconnect_all_hardware (initState {}) ⟨true, true, true, true⟩
        ({ relay := some "X" } : DisconnectEnv)).exn = some "X" :=
  ⟨(claim_C6_disconnect_not_independent (initState {}) (initState {})
      ⟨true, true, true, true⟩ ⟨true, true, true, true⟩
      ({ relay := some "X" } : DisconnectEnv) "X"
      ({ disconnect := { relay := some "X" } } : RunEnv)
      rfl rfl rfl rfl).1,
    (claim_C6_disconnect_not_independent (initState {}) (initState {})
      ⟨true, true, true, true⟩ ⟨true, true, true, true⟩
      ({ relay := some "X" } : DisconnectEnv) "X"
      ({ disconnect := { relay := some "X" } } : RunEnv)
      rfl rfl rfl rfl).2.1⟩

/-! ## claim C8: the stop-on-fail policy -/

/-- Whether one reporter action is a FAIL report. -/
def actFails : RAct → Bool
  | RAct.rep _ _ s => s == "FAIL"
  | RAct.inc => false

/-- Whether a sequence entry reports at least one FAIL step. -/
def entryFails (e : SeqEntry) : Bool := e.acts.any actFails

theorem applyActs_overall_no_fail (acts : List RAct) :
    ∀ st : RunnerState, acts.any actFails = false →
      (applyActs st acts).result.overall_status
        = st.result.overall_status := by
  induction acts with
  | nil => intro st _; rfl
  | cons a as ih =>
    intro st h
    simp only [List.any_cons, Bool.or_eq_false_iff] at h
    obtain ⟨ha, has⟩ := h
    have h1 : (applyAct st a).result.overall_status
        = st.result.overall_status := by
      cases a with
      | inc => rfl
      | rep sid msg s =>
        have hs : ¬s = "FAIL" := by
          intro hx
          subst hx
          simp [actFails] at ha
        simp [applyAct, report_overall, hs]
    have h2 := ih (applyAct st a) has
    exact h2.trans h1

theorem applyActs_overall_fail (acts : List RAct) :
    ∀ st : RunnerState, acts.any actFails = true →
      (applyActs st acts).result.overall_status = "FAIL" := by
  induction acts with
  | nil => intro st h; simp at h
  | cons a as ih =>
    intro st h
    simp only [List.any_cons, Bool.or_eq_true] at h
    rcases h with ha | has
    · have h1 : (applyAct st a).result.overall_status = "FAIL" := by
        cases a with
        | inc => simp [actFails] at ha
        | rep sid msg s =>
          have hx : s = "FAIL" := by simpa [actFails] using ha
          subst hx
          simp [applyAct, report_overall]
      exact (applyActs_ext as (applyAct st a)).2.2.1 h1
    · exact ih (applyAct st a) has

theorem runStepsLoop_cons_clean (cfg : Option Bool) (st : RunnerState)
    (k : String) (aa : List RAct) (es : List SeqEntry) :
    runStepsLoop cfg st (⟨k, false, false, aa, none⟩ :: es)
      = if (applyActs st aa).result.overall_status = "FAIL" then
          match cfg with
          | none => ⟨applyActs st aa, some stopOnFailAttrError, 1⟩
          | some true =>
            ⟨report (applyActs st aa) none
                "La secuencia se detuvo debido a un fallo." "INFO" [],
              none, 1⟩
          | some false =>
            ⟨(runStepsLoop cfg (applyActs st aa) es).st,
              (runStepsLoop cfg (applyActs st aa) es).exn,
              (runStepsLoop cfg (applyActs st aa) es).dispatched + 1⟩
        else
          ⟨(runStepsLoop cfg (applyActs st aa) es).st,
            (runStepsLoop cfg (applyActs st aa) es).exn,
            (runStepsLoop cfg (applyActs st aa) es).dispatched + 1⟩ := rfl

theorem runStepsLoop_some_false (entries : List SeqEntry) :
    ∀ st : RunnerState,
      (∀ e ∈ entries, e.stopSet = false ∧ e.missing = false ∧ e.exn = none) →
      (runStepsLoop (some false) st entries).dispatched = entries.length
      ∧ (runStepsLoop (some false) st entries).exn = none := by
  induction entries with
  | nil => intro st _; exact ⟨rfl, rfl⟩
  | cons e es ih =>
    intro st hc
    obtain ⟨h1, h2, h3⟩ := hc e (List.mem_cons_self e es)
    have hcs := fun x hx => hc x (List.mem_cons_of_mem e hx)
    rcases e with ⟨k, ss, mm, aa, ex⟩
    simp only at h1 h2 h3
    subst h1
    subst h2
    subst h3
    rw [runStepsLoop_cons_clean]
    obtain ⟨ihd, ihe⟩ := ih (applyActs st aa) hcs
    by_cases h4 : (applyActs st aa).result.overall_status = "FAIL"
    · rw [if_pos h4]
      refine ⟨?_, ihe⟩
      show (runStepsLoop (some false) (applyActs st aa) es).dispatched + 1
          = es.length + 1
      rw [ihd]
    · rw [if_neg h4]
      refine ⟨?_, ihe⟩
      show (runStepsLoop (some false) (applyActs st aa) es).dispatched + 1
          = es.length + 1
      rw [ihd]

theorem runStepsLoop_some_true (entries : List SeqEntry) :
    ∀ st : RunnerState,
      (∀ e ∈ entries, e.stopSet = false ∧ e.missing = false ∧ e.exn = none) →
      st.result.overall_status = "PASS" →
      (runStepsLoop (some true) st entries).exn = none
      ∧ ∀ j (hj : j < entries.length),
          entryFails (entries.get ⟨j, hj⟩) = true →
          (runStepsLoop (some true) st entries).dispatched ≤ j + 1 := by
  induction entries with
  | nil =>
    intro st _ _
    refine ⟨rfl, ?_⟩
    intro j hj
    exact absurd hj (Nat.not_lt_zero j)
  | cons e es ih =>
    intro st hc hpass
    obtain ⟨h1, h2, h3⟩ := hc e (List.mem_cons_self e es)
    have hcs := fun x hx => hc x (List.mem_cons_of_mem e hx)
    rcases e with ⟨k, ss, mm, aa, ex⟩
    simp only at h1 h2 h3
    subst h1
    subst h2
    subst h3
    rw [runStepsLoop_cons_clean]
    by_cases h4 : (applyActs st aa).result.overall_status = "FAIL"
    · rw [if_pos h4]
      refine ⟨rfl, ?_⟩
      intro j hj _
      show 1 ≤ j + 1
      exact Nat.succ_le_succ (Nat.zero_le j)
    · rw [if_neg h4]
      have hps : (applyActs st aa).result.overall_status = "PASS" := by
        rcases (applyActs_ext aa st).2.2.2.2 (Or.inl hpass) with h | h
        · exact h
        · exact absurd h h4
      obtain ⟨ihe, ihj⟩ := ih (applyActs st aa) hcs hps
      refine ⟨ihe, ?_⟩
      intro j hj hf
      cases j with
      | zero =>
        exact absurd (applyActs_overall_fail aa st hf) h4
      | succ j' =>
        have hj' : j' < es.length := Nat.lt_of_succ_lt_succ hj
        have hf' : entryFails (es.get ⟨j', hj'⟩) = true := hf
        show (runStepsLoop (some true) (applyActs st aa) es).dispatched + 1
            ≤ j' + 1 + 1
        exact Nat.succ_le_succ (ihj j' hj' hf')

theorem runStepsLoop_none_attr (entries : List SeqEntry) :
    ∀ st : RunnerState,
      (∀ e ∈ entries, e.stopSet = false ∧ e.missing = false ∧ e.exn = none) →
      st.result.overall_status = "PASS" →
      ∀ j (hj : j < entries.length),
        entryFails (entries.get ⟨j, hj⟩) = true →
        (runStepsLoop none st entries).dispatched ≤ j + 1
        ∧ (runStepsLoop none st entries).exn = some stopOnFailAttrError := by
  induction entries with
  | nil =>
    intro st _ _ j hj
    exact absurd hj (Nat.not_lt_zero j)
  | cons e es ih =>
    intro st hc hpass
    obtain ⟨h1, h2, h3⟩ := hc e (List.mem_cons_self e es)
    have hcs := fun x hx => hc x (List.mem_cons_of_mem e hx)
    rcases e with ⟨k, ss, mm, aa, ex⟩
    simp only at h1 h2 h3
    subst h1
    subst h2
    subst h3
    rw [runStepsLoop_cons_clean]
    by_cases h4 : (applyActs st aa).result.overall_status = "FAIL"
    · rw [if_pos h4]
      intro j hj _
      exact ⟨Nat.succ_le_succ (Nat.zero_le j), rfl⟩
    · rw [if_neg h4]
      have hps : (applyActs st aa).result.overall_status = "PASS" := by
        rcases (applyActs_ext aa st).2.2.2.2 (Or.inl hpass) with h | h
        · exact h
        · exact absurd h h4
      intro j hj hf
      cases j with
      | zero =>
        exact absurd (applyActs_overall_fail aa st hf) h4
      | succ j' =>
        have hj' : j' < es.length := Nat.lt_of_succ_lt_succ hj
        have hf' : entryFails (es.get ⟨j', hj'⟩) = true := hf
        obtain ⟨ihl, ihe⟩ := ih (applyActs st aa) hcs hps j' hj' hf'
        refine ⟨?_, ihe⟩
        show (runStepsLoop none (applyActs st aa) es).dispatched + 1
            ≤ j' + 1 + 1
        exact Nat.succ_le_succ ihl

/-- Claim C8 amended: over clean entries (no cancellation, no missing
handler, no escaping exception) started from a PASS state: with
stop_on_fail configured false, every entry is dispatched and the loop
returns normally; with stop_on_fail configured true, no entry after a
FAIL-reporting entry is dispatched and the loop returns normally (the run
then proceeds to the Disconnecting phase); but when the flag is absent
from the configuration object — as with ConfigManager, which defines no
stop_on_fail property — the first FAIL-reporting entry makes the guard
raise AttributeError, no further entry is dispatched, and the exception
escapes _run_test_steps regardless of the failing step. -/
theorem claim_C8_stop_on_fail (st : RunnerState) (entries : List SeqEntry)
    (hclean : ∀ e ∈ entries,
      e.stopSet = false ∧ e.missing = false ∧ e.exn = none)
    (hpass : st.result.overall_status = "PASS") :
    ((runStepsLoop (some false) st entries).dispatched = entries.length
      ∧ (runStepsLoop (some false) st entries).exn = none)
    ∧ ((runStepsLoop (some true) st entries).exn = none
      ∧ ∀ j (hj : j < entries.length),
          entryFails (entries.get ⟨j, hj⟩) = true →
          (runStepsLoop (some true) st entries).dispatched ≤ j + 1)
    ∧ (∀ j (hj : j < entries.length),
        entryFails (entries.get ⟨j, hj⟩) = true →
        (runStepsLoop none st entries).dispatched ≤ j + 1
        ∧ (runStepsLoop none st entries).exn = some stopOnFailAttrError) :=
  ⟨runStepsLoop_some_false entries st hclean,
    runStepsLoop_some_true entries st hclean hpass,
    runStepsLoop_none_attr entries st hclean hpass⟩

def c8wEntries : List SeqEntry :=
  [{ key := "test_step_connect_battery",
     acts := [RAct.inc, RAct.rep none "Fallo al conectar la batería -> FAIL" "FAIL"] },
   { key := "test_step_apply_vin",
     acts := [RAct.inc, RAct.rep none "Vin activado correctamente -> PASS" "PASS"] }]

theorem claim_C8_stop_on_fail_witness :
    (runStepsLoop (some false) (initState {}) c8wEntries).dispatched = 2
    ∧ (runStepsLoop (some true) (initState {}) c8wEntries).dispatched ≤ 1
    ∧ (runStepsLoop none (initState {}) c8wEntries).exn
        = some stopOnFailAttrError :=
  ⟨(claim_C8_stop_on_fail (initState {}) c8wEntries (by decide) rfl).1.1,
    (claim_C8_stop_on_fail (initState {}) c8wEntries (by decide) rfl).2.1.2
      0 (by decide) (by decide),
    ((claim_C8_stop_on_fail (initState {}) c8wEntries (by decide) rfl).2.2
      0 (by decide) (by decide)).2⟩

def c8env : RunEnv :=
  { entries := c8wEntries }

/-- Claim C8 counterexample: the repository configuration object defines no
stop_on_fail attribute (the model value none); with a failing first step
and a second sequence entry, the run does NOT continue: only one entry is
dispatched and the stop-on-fail guard raises AttributeError, caught by
run_full_test as a critical error. -/
theorem claim_C8_counterexample :
    c8env.stop_on_fail = none
    ∧ c8env.entries.length = 2
    ∧ (run_full_test c8env).dispatched = 1
    ∧ (run_full_test c8env).caught = some stopOnFailAttrError := by
  refine ⟨rfl, rfl, ?_, ?_⟩ <;> decide

end XmnzTester
